import Mathlib

/-!
Shallow embedding of `src/bot-script.py` (superomosh94/Telegram-bot): the
message dispatch and intent-resolution pipeline of an AI Telegram bot backed
by Dialogflow.  External collaborators (the Telegram transport and the
Dialogflow provider) are modelled as data: the provider's behaviour for the
single attempted call is an `Except` value passed in as a parameter, and the
observable effects of one dispatch cycle (provider calls made, clients
constructed, log lines, outbound replies) are collected in a result record.
-/

namespace BotScript

/-- Exception surface of the Dialogflow provider call. `googleAPICallError`
and `retryError` are the two kinds caught by `detect_intent`
(src/bot-script.py line 71); `otherExc` stands for any other exception, which
propagates out of `detect_intent` uncaught.  The `String` is the captured
cause (what Python would interpolate for `{e}`). -/
inductive ProviderExc where
  | googleAPICallError (msg : String)
  | retryError (msg : String)
  | otherExc (msg : String)
deriving DecidableEq

/-- String interpolation of an exception value, as in Python `f"... {e}"`. -/
def ProviderExc.message : ProviderExc → String
  | .googleAPICallError m => m
  | .retryError m => m
  | .otherExc m => m

/-- Fields of `response.query_result` consumed by `handle_message`
(src/bot-script.py lines 90 and 95): `result.intent.is_fallback` and
`result.fulfillment_text`. -/
structure QueryResult where
  is_fallback : Bool
  fulfillment_text : String
deriving DecidableEq

/-- Decimal-digit string of a natural number: model of Python `str()` applied
to the (nonnegative) Telegram user id at src/bot-script.py line 77. -/
def pyStr (n : Nat) : String :=
  if n = 0 then "0"
  else ⟨(Nat.digits 10 n).reverse.map fun d => Char.ofNat (48 + d)⟩

/-- Dialogflow v2 session path built by
`session_client.session_path(DIALOGFLOW_PROJECT_ID, user_id)`
(src/bot-script.py line 61): `projects/<project>/agent/sessions/<user_id>`. -/
def session_path (project user_id : String) : String :=
  "projects/" ++ project ++ "/agent/sessions/" ++ user_id

/-- Observable outcome of one `detect_intent` invocation
(src/bot-script.py lines 58-73). -/
structure DetectOutcome where
  /-- how many `dialogflow.SessionsClient()` objects were constructed during
  the invocation (line 60) -/
  clientsConstructed : Nat
  /-- the `(session, text)` argument pair of each `session_client.detect_intent`
  provider call made (lines 68-69), in order -/
  providerCalls : List (String × String)
  /-- messages passed to `logger.error` during the invocation (line 72) -/
  errorLog : List String
  /-- `.ok (some r)` = returned `response.query_result`; `.ok none` = returned
  `None` after a caught API error; `.error e` = exception `e` escapes uncaught -/
  ret : Except ProviderExc (Option QueryResult)

/-- Embedding of `AITelegramBot.detect_intent` (src/bot-script.py lines
58-73).  `provider` is the behaviour of the remote Dialogflow service for the
one attempted call; `project` is the `DIALOGFLOW_PROJECT_ID` configuration
value.  The method constructs a fresh `SessionsClient` (line 60), builds the
session path (line 61), makes exactly one `detect_intent` provider call inside
`try` (lines 68-69), returns `query_result` on success (line 70), and on
`GoogleAPICallError` or `RetryError` logs the cause and returns `None`
(lines 71-73); any other exception propagates. -/
def detect_intent (provider : Except ProviderExc QueryResult)
    (project : String) (text : String) (user_id : String) : DetectOutcome :=
  let session := session_path project user_id
  match provider with
  | .ok r =>
      { clientsConstructed := 1, providerCalls := [(session, text)],
        errorLog := [], ret := .ok (some r) }
  | .error (.googleAPICallError m) =>
      { clientsConstructed := 1, providerCalls := [(session, text)],
        errorLog := ["Dialogflow API error: " ++ m], ret := .ok none }
  | .error (.retryError m) =>
      { clientsConstructed := 1, providerCalls := [(session, text)],
        errorLog := ["Dialogflow API error: " ++ m], ret := .ok none }
  | .error (.otherExc m) =>
      { clientsConstructed := 1, providerCalls := [(session, text)],
        errorLog := [], ret := .error (.otherExc m) }

/-- Fixed reply sent when `detect_intent` returned `None`
(src/bot-script.py line 87). -/
def unavailableReplyText : String :=
  "I\x27m having trouble understanding. Please try again later."

/-- Fixed reply sent when the result is the fallback intent
(src/bot-script.py line 92). -/
def fallbackReplyText : String :=
  "I\x27m not sure I understand. Can you rephrase that?"

/-- Fixed reply sent by the `except Exception` clause of `handle_message`
(src/bot-script.py line 99). -/
def processingErrorReplyText : String :=
  "Sorry, I encountered an error processing your message."

/-- Observable outcome of one dispatch cycle (one handler invocation). -/
structure CycleOutcome where
  /-- `SessionsClient` constructions during the cycle -/
  clientsConstructed : Nat
  /-- `(session, text)` pairs of the provider calls made during the cycle -/
  providerCalls : List (String × String)
  /-- messages passed to `logger.error` -/
  errorLog : List String
  /-- messages passed to `logger.info` -/
  infoLog : List String
  /-- texts of the outbound replies sent via `update.message.reply_text` /
  `reply_markdown_v2`, in order -/
  replies : List String

/-- Embedding of `AITelegramBot.handle_message` (src/bot-script.py lines
75-99).  It derives `user_id = str(update.effective_user.id)` (line 77),
logs the inbound message (line 80), calls `detect_intent` inside `try`
(line 84), and replies: the fixed unavailable text when the result is `None`
(lines 86-88), the fixed clarification text when `result.intent.is_fallback`
(lines 90-92), otherwise `result.fulfillment_text` verbatim (line 95); any
exception reaching the `except Exception` clause is logged and answered with
the fixed processing-error text (lines 97-99). -/
def handle_message (provider : Except ProviderExc QueryResult)
    (project : String) (userIdNum : Nat) (user_message : String) : CycleOutcome :=
  let user_id := pyStr userIdNum
  let infoLog := ["User " ++ user_id ++ " sent: " ++ user_message]
  let d := detect_intent provider project user_message user_id
  match d.ret with
  | .error e =>
      { clientsConstructed := d.clientsConstructed,
        providerCalls := d.providerCalls,
        errorLog := d.errorLog ++ ["Error processing message: " ++ e.message],
        infoLog := infoLog,
        replies := [processingErrorReplyText] }
  | .ok none =>
      { clientsConstructed := d.clientsConstructed,
        providerCalls := d.providerCalls,
        errorLog := d.errorLog,
        infoLog := infoLog,
        replies := [unavailableReplyText] }
  | .ok (some r) =>
      { clientsConstructed := d.clientsConstructed,
        providerCalls := d.providerCalls,
        errorLog := d.errorLog,
        infoLog := infoLog,
        replies := [if r.is_fallback then fallbackReplyText else r.fulfillment_text] }

/-- Normalized NLU result of the specification (section 3): the adapter's
raw surface collapsed to three variants. -/
inductive NluResult where
  | matched (replyText : String)
  | fallback
  | unavailable
deriving DecidableEq

/-- Normalization implicit in `handle_message` (src/bot-script.py lines
86-95): `None` is the unavailable outcome, a fallback-classified result is
`fallback`, any other result is `matched` with its fulfillment text. -/
def classifyResult : Option QueryResult → NluResult
  | none => .unavailable
  | some q => if q.is_fallback then .fallback else .matched q.fulfillment_text

/-- Reply resolution of `handle_message` (src/bot-script.py lines 86-95) as
a function of the normalized result: the specification's `resolveReply`. -/
def resolveReply : NluResult → String
  | .matched t => t
  | .fallback => fallbackReplyText
  | .unavailable => unavailableReplyText

/-- Greeting sent by the `/start` handler (src/bot-script.py lines 40-43);
`mention` is the transport-supplied `user.mention_markdown_v2()`.  The first
literal is a raw f-string, so its backslash escapes are kept verbatim; in the
second (non-raw) literal `\x5c'` collapses to an apostrophe while `\x5c!`
keeps its backslash. -/
def startReplyText (mention : String) : String :=
  "Hi " ++ mention ++
    "\\! I\\\x27m an AI\\-powered bot\\. Ask me anything and I\x27ll do my best to help\\!"

/-- Help text sent by the `/help` handler (src/bot-script.py lines 47-56),
a triple-quoted literal kept verbatim with its indentation. -/
def helpText : String :=
  "\n        🤖 AI Bot Help:\n        \n        Just send me a message and I\x27ll try to understand and respond!\n        \n        Commands:\n        /start - Start interacting with the bot\n        /help - Show this help message\n        "

/-- Inbound Telegram event as consumed by the registered handlers: the
sender's numeric id (`update.effective_user.id`), the sender's markdown
mention (`user.mention_markdown_v2()`), the message text
(`update.message.text`), and the parsed command name (`some` for a
`/command` message, `none` for plain text). -/
structure InboundEvent where
  userId : Nat
  mention : String
  text : String
  command : Option String

/-- Cycle outcome with no provider activity and the given replies (the shape
produced by the two command handlers, which never touch Dialogflow). -/
def commandCycle (rs : List String) : CycleOutcome :=
  { clientsConstructed := 0, providerCalls := [], errorLog := [],
    infoLog := [], replies := rs }

/-- Handler registration of `AITelegramBot.__init__` (src/bot-script.py
lines 30-32) as an explicit dispatch: `CommandHandler("start", start)`,
`CommandHandler("help", help)`, and
`MessageHandler(Filters.text & ~Filters.command, handle_message)` for
non-command text.  A command with any other name matches no handler and
produces no reply. -/
def dispatch (provider : Except ProviderExc QueryResult)
    (project : String) (ev : InboundEvent) : CycleOutcome :=
  match ev.command with
  | some c =>
      if c = "start" then commandCycle [startReplyText ev.mention]
      else if c = "help" then commandCycle [helpText]
      else commandCycle []
  | none => handle_message provider project ev.userId ev.text

/-- Fields of the update consumed by `error_handler`: whether
`update.effective_message` is present. -/
structure EffUpdate where
  effective_message : Option Unit

/-- Notification sent by `error_handler` (src/bot-script.py lines 106-109);
the two adjacent Python literals concatenate. -/
def errorNotificationText : String :=
  "An error occurred while processing your request. The developers have been notified."

/-- Embedding of `AITelegramBot.error_handler` (src/bot-script.py lines
101-109): it always logs the exception (line 103) and, only when the update
is truthy and has an effective message, replies with the fixed notification
(lines 105-109).  Result: (error-log lines, replies). -/
def error_handler (update : Option EffUpdate) : List String × List String :=
  (["Exception while handling an update:"],
    match update with
    | some u =>
        match u.effective_message with
        | some _ => [errorNotificationText]
        | none => []
    | none => [])

/-- Decoder for `pyStr`: read the decimal digits back off the string. -/
def pyStrVal (s : String) : Nat :=
  Nat.ofDigits 10 ((s.data.map fun c => c.toNat - 48).reverse)

theorem digit_char_val : ∀ d < 10, (Char.ofNat (48 + d)).toNat - 48 = d := by
  decide

theorem pyStrVal_pyStr (n : Nat) : pyStrVal (pyStr n) = n := by
  by_cases h : n = 0
  · subst h; decide
  · unfold pyStr pyStrVal
    rw [if_neg h]
    show Nat.ofDigits 10
      ((((Nat.digits 10 n).reverse.map fun d => Char.ofNat (48 + d)).map
        fun c => c.toNat - 48).reverse) = n
    rw [List.map_map]
    have hc : ∀ d ∈ (Nat.digits 10 n).reverse,
        ((fun c => Char.toNat c - 48) ∘ fun d => Char.ofNat (48 + d)) d = id d := by
      intro d hd
      have hlt : d < 10 :=
        Nat.digits_lt_base (by norm_num) (List.mem_reverse.mp hd)
      simpa using digit_char_val d hlt
    rw [List.map_congr_left hc, List.map_id, List.reverse_reverse,
      Nat.ofDigits_digits]

theorem pyStr_injective : Function.Injective pyStr :=
  Function.LeftInverse.injective pyStrVal_pyStr

theorem session_path_injective (project : String) (u₁ u₂ : String)
    (h : u₁ ≠ u₂) : session_path project u₁ ≠ session_path project u₂ := by
  intro hc
  apply h
  apply String.ext
  have := congrArg String.data hc
  simpa [session_path, String.data_append] using this

/-- C1: every dispatch cycle of `handle_message` terminates with exactly one
outbound reply, never zero and never more than one, for every provider
behaviour — success, caught transient API error, or an uncaught exception —
so every failure kind is converted to a fixed reply text inside the cycle. -/
theorem c1_single_reply_per_cycle (provider : Except ProviderExc QueryResult)
    (project : String) (uid : Nat) (text : String) :
    (handle_message provider project uid text).replies.length = 1 := by
  cases provider with
  | ok r => rfl
  | error e => cases e <;> rfl

/-- C2 counterexample: for the whitespace-only text "   " the dispatcher does
invoke the NLU adapter — `handle_message` makes a provider call carrying the
raw whitespace text, refuting the claimed short-circuit. -/
theorem c2_counterexample :
    (handle_message (.ok ⟨false, "ok"⟩) "proj" 42 "   ").providerCalls ≠ [] := by
  simp [handle_message, detect_intent]

/-- C2 amended: `handle_message` performs no empty-text short-circuit — for
every text, including the empty and the whitespace-only ones, it submits
exactly that text to the provider in exactly one call, keyed by the string
form of the sender's id. -/
theorem c2_amended_no_short_circuit (provider : Except ProviderExc QueryResult)
    (project : String) (uid : Nat) (text : String) :
    (handle_message provider project uid text).providerCalls
      = [(session_path project (pyStr uid), text)] := by
  cases provider with
  | ok r => rfl
  | error e => cases e <;> rfl

/-- C3: the session key of every NLU call of a cycle is the string form of
the sending user's id — the call's session path is built from `pyStr uid` —
and the derivation is deterministic and injective: equal keys arise exactly
from equal ids, and distinct ids yield distinct session paths. -/
theorem c3_session_key_per_user (provider : Except ProviderExc QueryResult)
    (project : String) (uid uid₂ : Nat) (text : String) :
    (handle_message provider project uid text).providerCalls.map Prod.fst
        = [session_path project (pyStr uid)]
      ∧ (pyStr uid = pyStr uid₂ ↔ uid = uid₂)
      ∧ (uid ≠ uid₂ →
          session_path project (pyStr uid) ≠ session_path project (pyStr uid₂)) := by
  refine ⟨?_, ⟨fun h => pyStr_injective h, fun h => by rw [h]⟩, ?_⟩
  · cases provider with
    | ok r => rfl
    | error e => cases e <;> rfl
  · intro hne
    exact session_path_injective project _ _ fun hc => hne (pyStr_injective hc)

/-- C3 witness: instantiation at the user ids 1 and 2 with a concrete
provider result. -/
theorem c3_session_key_per_user_witness :
    (handle_message (.ok ⟨false, "hi"⟩) "proj" 1 "hello").providerCalls.map Prod.fst
        = [session_path "proj" (pyStr 1)]
      ∧ (pyStr 1 = pyStr 2 ↔ 1 = 2)
      ∧ session_path "proj" (pyStr 1) ≠ session_path "proj" (pyStr 2) := by
  obtain ⟨h₁, h₂, h₃⟩ :=
    c3_session_key_per_user (.ok ⟨false, "hi"⟩) "proj" 1 2 "hello"
  exact ⟨h₁, h₂, h₃ (by decide)⟩

/-- C4: `detect_intent` converts both caught transient provider errors
(`GoogleAPICallError` and `RetryError`) to the unavailable outcome `None` at
its own boundary, logging the captured cause instead of propagating, and it
makes exactly one provider attempt per invocation — no internal retry — for
every provider behaviour. -/
theorem c4_adapter_boundary (project text uid m : String)
    (provider : Except ProviderExc QueryResult) :
    (detect_intent (.error (.googleAPICallError m)) project text uid).ret
        = .ok none
      ∧ (detect_intent (.error (.retryError m)) project text uid).ret = .ok none
      ∧ (detect_intent (.error (.googleAPICallError m)) project text uid).errorLog
          = ["Dialogflow API error: " ++ m]
      ∧ (detect_intent provider project text uid).providerCalls.length = 1 := by
  refine ⟨rfl, rfl, rfl, ?_⟩
  cases provider with
  | ok r => rfl
  | error e => cases e <;> rfl

/-- C5 counterexample: the reply resolution returns the empty string on a
matched result whose fulfillment text is empty, so it does not return
non-empty reply text for each of the three variants. -/
theorem c5_counterexample : resolveReply (.matched "") = "" := rfl

/-- C5 amended: `resolveReply` is total over the three `NluResult` variants;
it returns non-empty fixed text for `fallback` and `unavailable`, and for
`matched` it returns the fulfillment text verbatim, which is empty exactly
when the provider supplied empty fulfillment text. -/
theorem c5_amended_resolver_totality (t : String) :
    resolveReply (.matched t) = t
      ∧ resolveReply .fallback ≠ ""
      ∧ resolveReply .unavailable ≠ "" := by
  refine ⟨rfl, ?_, ?_⟩ <;> decide

/-- C6: for a matched (non-fallback) provider result the text sent back to
the user is the fulfillment text verbatim — the cycle's replies are exactly
`[fulfillment_text]`, not re-wrapped and not truncated — and the empty
fulfillment text is passed through unchanged. -/
theorem c6_matched_verbatim (project : String) (uid : Nat) (text t : String) :
    (handle_message (.ok ⟨false, t⟩) project uid text).replies = [t]
      ∧ (handle_message (.ok ⟨false, ""⟩) project uid text).replies = [""] :=
  ⟨rfl, rfl⟩

/-- C7: the `start` and `help` commands are answered with their fixed handler
texts and bypass the NLU pipeline entirely — on the command path the dispatch
makes no provider call and constructs no provider client. -/
theorem c7_commands_bypass_nlu (provider : Except ProviderExc QueryResult)
    (project : String) (uid : Nat) (mention text : String) :
    ((dispatch provider project ⟨uid, mention, text, some "start"⟩).replies
        = [startReplyText mention]
      ∧ (dispatch provider project ⟨uid, mention, text, some "start"⟩).providerCalls
        = []
      ∧ (dispatch provider project ⟨uid, mention, text, some "start"⟩).clientsConstructed
        = 0)
    ∧ ((dispatch provider project ⟨uid, mention, text, some "help"⟩).replies
        = [helpText]
      ∧ (dispatch provider project ⟨uid, mention, text, some "help"⟩).providerCalls
        = []
      ∧ (dispatch provider project ⟨uid, mention, text, some "help"⟩).clientsConstructed
        = 0) :=
  ⟨⟨rfl, rfl, rfl⟩, ⟨rfl, rfl, rfl⟩⟩

/-- C8 counterexample: a single `detect_intent` invocation constructs one new
`SessionsClient` — the per-call construction count is 1, not 0 — refuting the
claim that no new provider client is established per call and that one
process-wide handle is reused by every cycle. -/
theorem c8_counterexample :
    (detect_intent (.ok ⟨false, "hi"⟩) "proj" "hello" "42").clientsConstructed = 1
      ∧ (detect_intent (.ok ⟨false, "hi"⟩) "proj" "hello" "42").clientsConstructed
        ≠ 0 :=
  ⟨rfl, by decide⟩

/-- C8 amended: the provider client is not a reused process-wide handle —
every `detect_intent` invocation constructs exactly one fresh
`SessionsClient`, so each NLU call establishes a new provider client. -/
theorem c8_amended_client_per_call (provider : Except ProviderExc QueryResult)
    (project text uid : String) :
    (detect_intent provider project text uid).clientsConstructed = 1 := by
  cases provider with
  | ok r => rfl
  | error e => cases e <;> rfl

/-- C9: the reply for an unavailable result is a fixed constant independent
of the failure reason — two cycles whose caught provider failures differ in
kind and in captured cause produce identical replies, equal to the fixed
unavailable text, while the cause appears only in the error log. -/
theorem c9_reason_not_in_reply (project : String) (uid : Nat)
    (text m₁ m₂ : String) :
    (handle_message (.error (.googleAPICallError m₁)) project uid text).replies
        = (handle_message (.error (.retryError m₂)) project uid text).replies
      ∧ (handle_message (.error (.googleAPICallError m₁)) project uid text).replies
        = [unavailableReplyText]
      ∧ (handle_message (.error (.googleAPICallError m₁)) project uid text).errorLog
        = ["Dialogflow API error: " ++ m₁] :=
  ⟨rfl, rfl, rfl⟩

/-- C10: `error_handler` always logs exactly one error line; it sends no
reply at all when the update is absent or has no effective message, and
exactly the one fixed notification when an effective message is present. -/
theorem c10_error_handler_replies (u : Option EffUpdate) :
    (error_handler u).1.length = 1
      ∧ (error_handler u).2 = (match u with
          | none => []
          | some ⟨none⟩ => []
          | some ⟨some _⟩ => [errorNotificationText]) := by
  refine ⟨rfl, ?_⟩
  match u with
  | none => rfl
  | some ⟨none⟩ => rfl
  | some ⟨some _⟩ => rfl

end BotScript
